import Mathlib

/-
Verification of the clinic question-answering orchestration layer
(crawl4AI-agent): a shallow embedding of `web_search.py`, `ai_manager.py`
and `pydantic_ai_expert.py` in Lean 4, together with theorems about the
decision policy, the search client and the error-handling paths.

External effects (HTTP calls, the LLM completion endpoint, the vector
store RPC) are modelled as explicit oracle values passed to the embedded
functions; each oracle constructor records one possible outcome of the
corresponding call, including the case where the call raises.
-/

/- ## Basic string utilities (models of the Python primitives used) -/

/-- Model of Python's substring test `needle in hay`. -/
def strContains (hay needle : String) : Bool :=
  (List.range (hay.data.length + 1)).any (fun i => needle.data.isPrefixOf (hay.data.drop i))

/-- Model of Python's `str.lower` (the strings involved are ASCII). -/
def pyLower (s : String) : String :=
  String.mk (s.data.map Char.toLower)

/-- Model of Python's `str.strip()` with no arguments. -/
def pyStrip (s : String) : String :=
  String.mk (((s.data.dropWhile Char.isWhitespace).reverse.dropWhile Char.isWhitespace).reverse)

/-- An apostrophe character, used to build the string literals of the source. -/
def apos : String := String.singleton (Char.ofNat 39)

/-- Truthiness of an optional string, as Python evaluates `if d.get(k):`
a missing key or an empty string is falsy. -/
def optTruthy : Option String → Bool
  | some s => s != ""
  | none => false

/-- Model of the Python slice `l[:stop]` for a possibly negative `stop`. -/
def pySliceTo {α : Type} (stop : Int) (l : List α) : List α :=
  if 0 ≤ stop then l.take stop.toNat
  else l.take (l.length - (-stop).toNat)

/- ## web_search.py -/

/-- One search result record, the uniform dict shape
`\x7btitle, content, url, score\x7d` built by `WebSearcher`. -/
structure SearchResult where
  title : String
  content : String
  url : String
  score : Rat
deriving DecidableEq

/-- One entry of the `results` array of a Tavily response, with the
`.get(k, default)` defaults already applied. -/
structure TavilyResultItem where
  title : String
  content : String
  url : String
  score : Rat
deriving DecidableEq

/-- The parsed body of a 200 Tavily response: the optional direct `answer`
and the `results` array. -/
structure TavilyData where
  answer : Option String
  results : List TavilyResultItem
deriving DecidableEq

/-- Outcome of the primary (Tavily) HTTP POST: an exception anywhere in the
try block, a 200 response with parsed body, or a non-200 status. -/
inductive PrimaryResponse where
  | exn
  | status200 (data : TavilyData)
  | statusOther (code : Nat)
deriving DecidableEq

/-- One element of the DuckDuckGo `RelatedTopics` array. `isDict` records
whether the element is a dict (the source checks `isinstance(topic, dict)`). -/
structure DuckTopic where
  isDict : Bool
  text : Option String
  firstURL : Option String
deriving DecidableEq

/-- The parsed body of a 200 DuckDuckGo instant-answer response. -/
structure DuckData where
  abstract : Option String
  abstractURL : Option String
  definition : Option String
  definitionURL : Option String
  relatedTopics : List DuckTopic
deriving DecidableEq

/-- Outcome of the fallback (DuckDuckGo) HTTP GET. -/
inductive DuckOutcome where
  | exn
  | status200 (data : DuckData)
  | statusOther (code : Nat)
deriving DecidableEq

/-- The outcomes of the two HTTP endpoints a single `search_web` call can hit. -/
structure HttpWorld where
  primary : PrimaryResponse
  duck : DuckOutcome
deriving DecidableEq

/-- A `WebSearcher` instance; its only state is `self.api_key`, set in
`__init__` from the constructor argument or the TAVILY_API_KEY variable. -/
structure WebSearcher where
  api_key : Option String
deriving DecidableEq

/-- The synthetic result built at the end of `_fallback_search` when the
fallback request raised or had a non-200 status. -/
def searchUnavailableResult (query : String) : SearchResult :=
  ⟨"Web Search Unavailable",
   "I cannot search the web for current information about " ++ apos ++ query ++ apos ++
     " at the moment. Please contact the clinic directly for the most up-to-date information at +49 (0) 157 834 488 90 or info@haut-labor.de.",
   "", 1/10⟩

/-- The result list built from a 200 Tavily response: the direct answer
(when truthy) followed by the mapped `results` entries. -/
def tavilyToResults (data : TavilyData) : List SearchResult :=
  (if optTruthy data.answer then
    [⟨"Direct Answer", data.answer.getD "", "Multiple sources", 1⟩]
  else []) ++
  data.results.map (fun r => ⟨r.title, r.content, r.url, r.score⟩)

/-- Embedding of `WebSearcher._fallback_search`: on a 200 response build
abstract, definition, then related-topic snippets (the topics slice bound
`max_results - len(results)` follows Python slice semantics); on an
exception or non-200 status return the single synthetic disclaimer. -/
def WebSearcher.fallback_search (_self : WebSearcher) (query : String) (max_results : Nat)
    (w : HttpWorld) : List SearchResult :=
  match w.duck with
  | DuckOutcome.status200 data =>
    let results₁ := if optTruthy data.abstract then
        [⟨"Information about: " ++ query, data.abstract.getD "", data.abstractURL.getD "DuckDuckGo", 4/5⟩]
      else []
    let results₂ := results₁ ++ (if optTruthy data.definition then
        [⟨"Definition: " ++ query, data.definition.getD "", data.definitionURL.getD "DuckDuckGo", 7/10⟩]
      else [])
    results₂ ++
      ((pySliceTo ((max_results : Int) - (results₂.length : Int)) data.relatedTopics).filter
        (fun t => t.isDict && optTruthy t.text)).map
        (fun t => ⟨"Related Information", t.text.getD "", t.firstURL.getD "", 3/5⟩)
  | DuckOutcome.exn => [searchUnavailableResult query]
  | DuckOutcome.statusOther _ => [searchUnavailableResult query]

/-- Embedding of `WebSearcher.search_web`: with a falsy key go straight to
the fallback; otherwise POST to Tavily and, on a 200 response, return its
parsed results (without consulting the fallback), while a non-200 status or
an exception fall back. -/
def WebSearcher.search_web (self : WebSearcher) (query : String) (max_results : Nat)
    (w : HttpWorld) : List SearchResult :=
  if !(optTruthy self.api_key) then
    self.fallback_search query max_results w
  else
    match w.primary with
    | PrimaryResponse.status200 data => tavilyToResults data
    | PrimaryResponse.statusOther _ => self.fallback_search query max_results w
    | PrimaryResponse.exn => self.fallback_search query max_results w

/-- Embedding of `WebSearcher.format_search_results`. -/
def WebSearcher.format_search_results (_self : WebSearcher) (results : List SearchResult) : String :=
  if results.isEmpty then "No search results found."
  else
    let formatted_results :=
      "## Web Search Results\n" ::
        (results.enum.map (fun p =>
          ["### Result " ++ toString (p.1 + 1) ++ ": " ++ p.2.title,
           "**Source:** " ++ p.2.url,
           "**Content:** " ++ p.2.content,
           "---\n"])).flatten
    String.intercalate "\n" formatted_results

/- ## pydantic_ai_expert.py -/

/-- One document record returned by the vector store. -/
structure Doc where
  title : String
  url : String
  content : String
deriving DecidableEq

/-- Embedding of `get_embedding`: the oracle is the outcome of the OpenAI
embeddings call; on any exception the function returns `[0] * 1536`. -/
def get_embedding (embedding_call : Except String (List Int)) : List Int :=
  match embedding_call with
  | Except.ok v => v
  | Except.error _ => List.replicate 1536 0

/-- The sentinel returned by `retrieve_relevant_clinic_information` when no
documents survive filtering. -/
def noRelevantInfoMsg : String :=
  "No relevant clinic information found. Please contact the clinic directly at +49 (0) 157 834 488 90 or info@haut-labor.de."

/-- The chunk rendering of `retrieve_relevant_clinic_information`. -/
def formatChunks (docs : List Doc) : String :=
  String.intercalate "\n\n---\n\n"
    (docs.map (fun d => "\n# " ++ d.title ++ "\n**URL:** " ++ d.url ++ "\n\n" ++ d.content ++ "\n"))

/-- Embedding of `retrieve_relevant_clinic_information`. `rpc` is the
similarity-search RPC as a function of the query embedding; `direct` is the
secondary substring-match query; an `Except.error` models the call raising,
which the outer `except` turns into an error string. -/
def retrieve_relevant_clinic_information (embedding_call : Except String (List Int))
    (rpc : List Int → Except String (List Doc)) (direct : Except String (List Doc)) : String :=
  let query_embedding := get_embedding embedding_call
  match rpc query_embedding with
  | Except.error e => "Error retrieving clinic information: " ++ e
  | Except.ok docs =>
    if docs.isEmpty then noRelevantInfoMsg
    else
      let filtered_data := docs.filter (fun d => strContains d.url "haut-labor.de")
      if filtered_data.isEmpty then
        match direct with
        | Except.error e => "Error retrieving clinic information: " ++ e
        | Except.ok ds => if ds.isEmpty then noRelevantInfoMsg else formatChunks ds
      else formatChunks filtered_data

/- ## ai_manager.py -/

/-- Opaque handles carried by `ClinicAIDeps` (a Supabase client and an
OpenAI client); only their identity matters to the orchestration layer. -/
structure ClinicAIDeps where
  supabase : Nat
  openai_client : Nat
deriving DecidableEq

/-- Dependencies passed to `AIManager.process_query` (`AIManagerDeps`). -/
structure AIManagerDeps where
  clinic_deps : ClinicAIDeps
  web_searcher : WebSearcher

/-- The external world of one `process_query` run: `agent_run` is
`clinic_ai_expert.run` (prompt, deps, history); `Except.error` models the
call raising, with the carried string as `str(e)`. -/
structure World where
  agent_run : String → ClinicAIDeps → List String → Except String String
  http : HttpWorld

/-- An `AIManager` instance: `test_mode` and the `WebSearcher` built in
`__init__` (whose key comes from the TAVILY_API_KEY variable). -/
structure AIManager where
  test_mode : Bool
  web_searcher : WebSearcher

/-- Embedding of `AIManager.__init__`: constructs the internal searcher
from the environment-provided key. -/
def AIManager.init (test_mode : Bool) (tavily_api_key_env : Option String) : AIManager :=
  ⟨test_mode, ⟨tavily_api_key_env⟩⟩

/-- The `self.current_info_keywords` list set in `AIManager.__init__`. -/
def current_info_keywords : List String :=
  ["latest", "recent", "current", "new", "updated", "2024", "2025",
   "now", "today", "this year", "trending", "modern", "newest",
   "price", "cost", "availability", "schedule", "appointment",
   "comparison", "versus", "vs", "alternative", "competitor",
   "study", "studies", "research", "clinical trial", "evidence",
   "scientific", "pubmed", "journal", "publication", "findings"]

/-- The `self.web_search_indicators` list set in `AIManager.__init__`. -/
def web_search_indicators : List String :=
  ["i don" ++ apos ++ "t have current information",
   "i cannot find specific information",
   "for the most up-to-date",
   "contact the clinic directly",
   "i don" ++ apos ++ "t have information about",
   "not available in my knowledge",
   "current pricing",
   "latest information",
   "recent developments"]

/-- Embedding of `AIManager._analyze_need_for_web_search`. -/
def analyze_need_for_web_search (user_query rag_response : String) : Bool :=
  let query_lower := pyLower user_query
  let response_lower := pyLower rag_response
  let query_needs_current := current_info_keywords.any (fun keyword => strContains query_lower keyword)
  let response_indicates_search := web_search_indicators.any (fun indicator => strContains response_lower indicator)
  let short_response := decide ((pyStrip rag_response).length < 200)
  let no_specific_info := strContains response_lower "no relevant clinic information found"
  query_needs_current || response_indicates_search || short_response || no_specific_info

/-- Embedding of `AIManager._create_web_search_query` (the `rag_response`
argument is accepted and unused, as in the source). -/
def create_web_search_query (original_query _rag_response : String) : String :=
  let query_lower := pyLower original_query
  if ["study", "studies", "research", "clinical trial"].any (fun term => strContains query_lower term) then
    original_query ++ " clinical studies pubmed research 2024"
  else if strContains query_lower "price" || strContains query_lower "cost" then
    original_query ++ " Germany aesthetic clinic pricing 2024"
  else if strContains query_lower "latest" || strContains query_lower "new" || strContains query_lower "recent" then
    original_query ++ " latest developments research 2024"
  else if ["botox", "filler", "laser", "treatment"].any (fun term => strContains query_lower term) then
    original_query ++ " clinical evidence medical literature 2024"
  else
    original_query ++ " aesthetic medicine research"

/-- The mock RAG answer produced by `_get_rag_response` in test mode. -/
def mock_rag_content (user_query : String) : String :=
  let query_lower := pyLower user_query
  if ["study", "studies", "research", "clinical", "evidence"].any (fun k => strContains query_lower k) then
    "I don" ++ apos ++ "t have current information about recent studies on this topic. For the most up-to-date research, you may want to consult medical databases."
  else if ["price", "cost", "pricing"].any (fun k => strContains query_lower k) then
    "I don" ++ apos ++ "t have current pricing information. Please contact the clinic directly for the most up-to-date pricing."
  else
    "Based on our clinic" ++ apos ++ "s knowledge base, here" ++ apos ++
      "s information about your question regarding " ++ apos ++ user_query ++ apos ++
      ". This is comprehensive clinic-specific information that should answer your query fully."

/-- Embedding of `AIManager._get_rag_response` (and of the extraction of
the answer text from the run result): the exception branch returns the
error string built in the `except` clause. -/
def AIManager.get_rag_response (self : AIManager) (w : World) (user_query : String)
    (clinic_deps : ClinicAIDeps) (message_history : List String) : String :=
  if self.test_mode then mock_rag_content user_query
  else
    match w.agent_run user_query clinic_deps message_history with
    | Except.ok result => result
    | Except.error e => "Error retrieving clinic information: " ++ e

/-- The synthesis prompt f-string of `_synthesize_final_answer`. -/
def synthesis_prompt (user_query rag_response web_results : String) : String :=
  "\nBased on the user" ++ apos ++ "s question: \"" ++ user_query ++ "\"\n\n" ++
  "I have two sources of information:\n\n" ++
  "1. CLINIC KNOWLEDGE (from Haut Labor Oldenburg database):\n" ++ rag_response ++ "\n\n" ++
  "2. CURRENT WEB INFORMATION:\n" ++ web_results ++ "\n\n" ++
  "CRITICAL INSTRUCTIONS:\n" ++
  "- Do NOT fabricate, invent, or hallucinate any studies, research papers, or specific sources\n" ++
  "- Do NOT create fake URLs, website names, or publication citations\n" ++
  "- If you don" ++ apos ++ "t have specific information, clearly state this limitation\n" ++
  "- Only reference information that is explicitly provided in the sources above\n" ++
  "- Be honest about what information is available vs. what is not\n\n" ++
  "Please provide a comprehensive answer that:\n" ++
  "- Prioritizes our clinic" ++ apos ++ "s specific information and services\n" ++
  "- Supplements with general information from web search where helpful\n" ++
  "- Maintains focus on Haut Labor Oldenburg clinic\n" ++
  "- Provides actionable advice for the user\n" ++
  "- Includes clinic contact information when appropriate\n" ++
  "- Always recommends consulting with qualified medical professionals\n\n" ++
  "If there are discrepancies between sources, prioritize clinic-specific information but mention general industry information when relevant.\n"

/-- Embedding of `AIManager._synthesize_final_answer`: a second agent run
on the synthesis prompt; on an exception, the deterministic concatenation
of the RAG text and the formatted web results. -/
def AIManager.synthesize_final_answer (_self : AIManager) (w : World)
    (user_query rag_response web_results : String)
    (clinic_deps : ClinicAIDeps) (message_history : List String) : String :=
  match w.agent_run (synthesis_prompt user_query rag_response web_results) clinic_deps message_history with
  | Except.ok result => result
  | Except.error _ =>
    rag_response ++ "\n\n**Additional Current Information:**\n" ++ web_results

/-- The passes a `process_query` run performs, in order. -/
inductive Pass where
  | rag
  | search
  | synth
deriving DecidableEq, BEq, Repr

/-- Embedding of `AIManager.process_query`, instrumented with the list of
passes performed. Step 1 is the RAG pass; step 2 the decision; steps 3-4
(search and synthesis) run only when the decision is positive, and the
search uses `self.web_searcher`, the instance built in `__init__`. -/
def AIManager.process_query (self : AIManager) (w : World) (user_query : String)
    (deps : AIManagerDeps) (message_history : List String) : List Pass × String :=
  let rag_text := self.get_rag_response w user_query deps.clinic_deps message_history
  let needs_web_search := analyze_need_for_web_search user_query rag_text
  if needs_web_search then
    let web_search_query := create_web_search_query user_query rag_text
    let web_results := self.web_searcher.search_web web_search_query 3 w.http
    let formatted_web_results := self.web_searcher.format_search_results web_results
    let final_response := self.synthesize_final_answer w user_query rag_text
      formatted_web_results deps.clinic_deps message_history
    ([Pass.rag, Pass.search, Pass.synth], final_response)
  else
    ([Pass.rag], rag_text)

/-- Python-level errors surfaced by the embedding. -/
inductive PyError where
  | attributeError (attr : String)
deriving DecidableEq

/-- The attributes a `WebSearcher` instance has: the fields set in
`__init__` and the methods defined by `class WebSearcher` in web_search.py. -/
def webSearcherAttrs : List String :=
  ["api_key", "base_url", "search_web", "_fallback_search", "format_search_results"]

/-- Attribute lookup followed by a call: raises `AttributeError` when the
class defines no such attribute. -/
def callAttr (attrs : List String) (name : String) : Except PyError Unit :=
  if attrs.contains name then Except.ok () else Except.error (PyError.attributeError name)

/-- Python `try/finally` semantics: an exception raised by the finally
block propagates, discarding the body's outcome. -/
def pyTryFinally {α : Type} (body : Except PyError α) (finalizer : Except PyError Unit) :
    Except PyError α :=
  match finalizer with
  | Except.ok _ => body
  | Except.error e => Except.error e

/-- Embedding of the top-level `process_clinic_query`: build a manager and
a searcher, run `process_query`, and in the `finally` block call
`web_searcher.close()` — an attribute lookup on the searcher instance. -/
def process_clinic_query (w : World) (tavily_api_key_env : Option String) (user_query : String)
    (clinic_deps : ClinicAIDeps) (message_history : List String) : Except PyError String :=
  let manager := AIManager.init false tavily_api_key_env
  let web_searcher : WebSearcher := ⟨tavily_api_key_env⟩
  let deps : AIManagerDeps := ⟨clinic_deps, web_searcher⟩
  pyTryFinally (Except.ok (manager.process_query w user_query deps message_history).2)
    (callAttr webSearcherAttrs "close")

/- ## Spec-side definitions used to state the claims -/

/-- Signal 1 of the decision policy: the lowercased query contains one of
the fixed current-info keywords. -/
def queryTriggersSearch (user_query : String) : Bool :=
  current_info_keywords.any (fun keyword => strContains (pyLower user_query) keyword)

/-- Signal 2: the lowercased RAG answer contains one of the fixed
insufficiency phrases. -/
def answerSignalsInsufficiency (rag_answer : String) : Bool :=
  web_search_indicators.any (fun indicator => strContains (pyLower rag_answer) indicator)

/-- Signal 3: the whitespace-trimmed RAG answer is shorter than 200 characters. -/
def answerTooShort (rag_answer : String) : Bool :=
  decide ((pyStrip rag_answer).length < 200)

/-- Signal 4: the lowercased RAG answer contains the retrieval tool's
no-information marker phrase. -/
def answerNoInfoMarker (rag_answer : String) : Bool :=
  strContains (pyLower rag_answer) "no relevant clinic information found"

/-- The priority-ordered query-optimization rules: trigger terms paired
with the suffix that rule appends. -/
def searchQueryRules : List (List String × String) :=
  [(["study", "studies", "research", "clinical trial"], " clinical studies pubmed research 2024"),
   (["price", "cost"], " Germany aesthetic clinic pricing 2024"),
   (["latest", "new", "recent"], " latest developments research 2024"),
   (["botox", "filler", "laser", "treatment"], " clinical evidence medical literature 2024")]

/-- First-match selection over the rule list, with the generic qualifier
as the default. -/
def firstMatchSuffix : List (List String × String) → String → String
  | [], _ => " aesthetic medicine research"
  | (terms, sfx) :: rest, query_lower =>
    if terms.any (fun t => strContains query_lower t) then sfx
    else firstMatchSuffix rest query_lower

/-- Whether the primary provider outcome counts as a failure (exception or
non-200 status) rather than a successful 200 response. -/
def primaryFailed : PrimaryResponse → Bool
  | PrimaryResponse.status200 _ => false
  | PrimaryResponse.exn => true
  | PrimaryResponse.statusOther _ => true

/-- Whether the fallback provider outcome counts as a failure. -/
def duckFailed : DuckOutcome → Bool
  | DuckOutcome.status200 _ => false
  | DuckOutcome.exn => true
  | DuckOutcome.statusOther _ => true

/-- Rendering of one search result as the spec describes it, with no
content truncation and no disclaimer header since the code applies neither. -/
def specRenderResult (idx : Nat) (r : SearchResult) : List String :=
  ["### Result " ++ toString idx ++ ": " ++ r.title,
   "**Source:** " ++ r.url,
   "**Content:** " ++ r.content,
   "---\n"]

/-- The spec-side rendering of a whole result list: a fixed header, then
each result exactly once in original order. -/
def specFormatResults (results : List SearchResult) : String :=
  if results.isEmpty then "No search results found."
  else
    String.intercalate "\n"
      ("## Web Search Results\n" :: (results.enum.map (fun p => specRenderResult (p.1 + 1) p.2)).flatten)

/- ## Concrete sample inputs used by witnesses and counterexamples -/

/-- A 250-character RAG answer with no trigger phrase. -/
def longAnswer : String := String.mk (List.replicate 250 'x')

/-- A world whose agent always answers with `longAnswer` and whose HTTP
endpoints always raise. -/
def sampleWorldLong : World :=
  ⟨fun _ _ _ => Except.ok longAnswer, ⟨PrimaryResponse.exn, DuckOutcome.exn⟩⟩

/-- A world whose agent always raises. -/
def sampleWorldErr : World :=
  ⟨fun _ _ _ => Except.error "boom", ⟨PrimaryResponse.exn, DuckOutcome.exn⟩⟩

/-- Sample manager dependencies. -/
def sampleDeps : AIManagerDeps := ⟨⟨0, 0⟩, ⟨none⟩⟩

/-- A 400-character content string, longer than the alleged 300-character cap. -/
def longContentA : String := String.mk (List.replicate 400 'a')

/- ## Helper lemmas -/

theorem str_data_append (a b : String) : (a ++ b).data = a.data ++ b.data := by
  cases a; cases b; rfl

theorem isPrefixOf_append_self (l t : List Char) : l.isPrefixOf (l ++ t) = true := by
  induction l with
  | nil => cases t <;> rfl
  | cons a as ih => simp [List.isPrefixOf, ih]

theorem ite_chain_append (q s1 s2 s3 s4 s5 : String) (c1 c2 c3 c4 : Prop)
    [Decidable c1] [Decidable c2] [Decidable c3] [Decidable c4] :
    (if c1 then q ++ s1 else if c2 then q ++ s2 else if c3 then q ++ s3
     else if c4 then q ++ s4 else q ++ s5) =
    q ++ (if c1 then s1 else if c2 then s2 else if c3 then s3 else if c4 then s4 else s5) := by
  by_cases h1 : c1 <;> by_cases h2 : c2 <;> by_cases h3 : c3 <;> by_cases h4 : c4 <;>
    simp [h1, h2, h3, h4]

theorem strContains_of_parts (hay needle : String) (p q : List Char)
    (h : hay.data = p ++ (needle.data ++ q)) : strContains hay needle = true := by
  unfold strContains
  apply List.any_eq_true.mpr
  refine ⟨p.length, List.mem_range.mpr ?_, ?_⟩
  · rw [h]
    simp only [List.length_append]
    omega
  · rw [h, List.drop_left]
    exact isPrefixOf_append_self needle.data q

theorem process_query_eq (self : AIManager) (w : World) (user_query : String)
    (deps : AIManagerDeps) (message_history : List String) :
    self.process_query w user_query deps message_history =
      (if analyze_need_for_web_search user_query
          (self.get_rag_response w user_query deps.clinic_deps message_history) then
        ([Pass.rag, Pass.search, Pass.synth],
          self.synthesize_final_answer w user_query
            (self.get_rag_response w user_query deps.clinic_deps message_history)
            (self.web_searcher.format_search_results
              (self.web_searcher.search_web
                (create_web_search_query user_query
                  (self.get_rag_response w user_query deps.clinic_deps message_history)) 3 w.http))
            deps.clinic_deps message_history)
      else ([Pass.rag], self.get_rag_response w user_query deps.clinic_deps message_history)) := rfl

/- ## Claim theorems -/

/-- C1: `_analyze_need_for_web_search` returns true exactly when at least
one of the four independent signals holds — a fixed current-info keyword in
the lowercased query, a fixed insufficiency phrase in the lowercased RAG
answer, a whitespace-trimmed RAG answer shorter than 200 characters, or the
no-information marker phrase in the lowercased RAG answer — and in
particular a trigger keyword in the query forces true for every RAG answer;
all checks are case-insensitive substring matches. -/
theorem analyze_need_iff_four_signals (user_query rag_answer : String) :
    analyze_need_for_web_search user_query rag_answer =
      (queryTriggersSearch user_query || answerSignalsInsufficiency rag_answer ||
       answerTooShort rag_answer || answerNoInfoMarker rag_answer) ∧
    (queryTriggersSearch user_query = true →
      analyze_need_for_web_search user_query rag_answer = true) := by
  constructor
  · rfl
  · intro h
    have e : analyze_need_for_web_search user_query rag_answer =
        (queryTriggersSearch user_query || answerSignalsInsufficiency rag_answer ||
         answerTooShort rag_answer || answerNoInfoMarker rag_answer) := rfl
    rw [e, h]
    simp

/-- Witness for C1 at a concrete trigger-keyword query. -/
theorem analyze_need_iff_four_signals_witness :
    analyze_need_for_web_search "latest botox price" "" = true :=
  (analyze_need_iff_four_signals "latest botox price" "").2 (by decide)

/-- C2 counterexample: with a configured key, a 200 Tavily response carrying
no answer and no results makes `search_web` return the empty list, not a
list with at least one (disclaimer) record. -/
theorem search_web_empty_despite_success :
    (WebSearcher.mk (some "tvly-key")).search_web "" 5
      ⟨PrimaryResponse.status200 ⟨none, []⟩,
       DuckOutcome.status200 ⟨none, none, none, none, []⟩⟩ = [] := rfl

/-- C2 (amended): `search_web` is total — every exception of either provider
is caught and mapped to a fallback value — and whenever every step that runs
actually fails (the key is falsy or the primary raises / returns non-200,
and the fallback raises or returns non-200) the result is exactly the single
synthetic disclaimer; a 200 provider response with zero usable items is,
however, returned as the empty list. -/
theorem search_web_single_disclaimer_on_total_failure
    (self : WebSearcher) (query : String) (max_results : Nat) (w : HttpWorld)
    (h : ((!(optTruthy self.api_key) || primaryFailed w.primary) && duckFailed w.duck) = true) :
    self.search_web query max_results w = [searchUnavailableResult query] := by
  rw [Bool.and_eq_true] at h
  obtain ⟨h₁, h₂⟩ := h
  have hfb : self.fallback_search query max_results w = [searchUnavailableResult query] := by
    cases hw : w.duck with
    | status200 d => rw [hw] at h₂; simp [duckFailed] at h₂
    | exn => simp [WebSearcher.fallback_search, hw]
    | statusOther c => simp [WebSearcher.fallback_search, hw]
  rw [Bool.or_eq_true] at h₁
  cases hk : optTruthy self.api_key with
  | false => simpa [WebSearcher.search_web, hk] using hfb
  | true =>
    rcases h₁ with h₃ | h₃
    · rw [hk] at h₃
      simp at h₃
    · cases hp : w.primary with
      | status200 d => rw [hp] at h₃; simp [primaryFailed] at h₃
      | exn => simpa [WebSearcher.search_web, hk, hp] using hfb
      | statusOther c => simpa [WebSearcher.search_web, hk, hp] using hfb

/-- Witness for the amended C2: missing credential and a raising fallback. -/
theorem search_web_single_disclaimer_on_total_failure_witness :
    (WebSearcher.mk none).search_web "anything" 3 ⟨PrimaryResponse.exn, DuckOutcome.exn⟩ =
      [searchUnavailableResult "anything"] :=
  search_web_single_disclaimer_on_total_failure (WebSearcher.mk none) "anything" 3
    ⟨PrimaryResponse.exn, DuckOutcome.exn⟩ (by decide)

/-- C3: every invocation of the top-level `process_clinic_query` terminates
with an `AttributeError` raised by the `finally` block, because the
`WebSearcher` class defines no `close` attribute; the computed answer is
never returned normally. -/
theorem process_clinic_query_always_attribute_error
    (w : World) (tavily_api_key_env : Option String) (user_query : String)
    (clinic_deps : ClinicAIDeps) (message_history : List String) :
    process_clinic_query w tavily_api_key_env user_query clinic_deps message_history =
      Except.error (PyError.attributeError "close") ∧
    webSearcherAttrs.contains "close" = false :=
  ⟨rfl, rfl⟩

/-- C4: whenever the synthesis agent call raises, the returned answer is the
deterministic concatenation that contains both the original RAG answer text
and the formatted web results as substrings. -/
theorem synthesize_fallback_contains_both
    (self : AIManager) (w : World) (user_query rag_response web_results : String)
    (clinic_deps : ClinicAIDeps) (message_history : List String) (e : String)
    (h : w.agent_run (synthesis_prompt user_query rag_response web_results)
          clinic_deps message_history = Except.error e) :
    strContains (self.synthesize_final_answer w user_query rag_response web_results
        clinic_deps message_history) rag_response = true ∧
    strContains (self.synthesize_final_answer w user_query rag_response web_results
        clinic_deps message_history) web_results = true := by
  have hfb : self.synthesize_final_answer w user_query rag_response web_results
      clinic_deps message_history =
      rag_response ++ "\n\n**Additional Current Information:**\n" ++ web_results := by
    unfold AIManager.synthesize_final_answer
    rw [h]
  rw [hfb]
  constructor
  · exact strContains_of_parts _ _ []
      ((String.data "\n\n**Additional Current Information:**\n") ++ web_results.data)
      (by simp [str_data_append])
  · exact strContains_of_parts _ _
      (rag_response.data ++ String.data "\n\n**Additional Current Information:**\n") []
      (by simp [str_data_append])

/-- Witness for C4 at a raising synthesis call. -/
theorem synthesize_fallback_contains_both_witness :
    strContains ((AIManager.init false none).synthesize_final_answer sampleWorldErr
      "q" "RAG ANSWER TEXT" "WEB RESULTS TEXT" ⟨0, 0⟩ []) "RAG ANSWER TEXT" = true ∧
    strContains ((AIManager.init false none).synthesize_final_answer sampleWorldErr
      "q" "RAG ANSWER TEXT" "WEB RESULTS TEXT" ⟨0, 0⟩ []) "WEB RESULTS TEXT" = true :=
  synthesize_fallback_contains_both (AIManager.init false none) sampleWorldErr
    "q" "RAG ANSWER TEXT" "WEB RESULTS TEXT" ⟨0, 0⟩ [] "boom" rfl

/-- C5: `_create_web_search_query` appends exactly the suffix of the first
matching rule of the fixed priority order (clinical-research, pricing,
recency, named treatments, generic default); in particular a query with
both a pricing term and a research term gets only the research-rule suffix,
never a combination. -/
theorem create_query_first_rule_only (original_query rag_response : String) :
    create_web_search_query original_query rag_response =
      original_query ++ firstMatchSuffix searchQueryRules (pyLower original_query) ∧
    ((strContains (pyLower original_query) "price" = true ∧
      strContains (pyLower original_query) "research" = true) →
     create_web_search_query original_query rag_response =
       original_query ++ " clinical studies pubmed research 2024") := by
  constructor
  · simp only [create_web_search_query, firstMatchSuffix, searchQueryRules,
      List.any_cons, List.any_nil, Bool.or_false, Bool.or_assoc]
    apply ite_chain_append
  · rintro ⟨hp, hr⟩
    simp [create_web_search_query, hr]

/-- Witness for C5 at a query containing both a pricing and a research term. -/
theorem create_query_first_rule_only_witness :
    create_web_search_query "price research" "" =
      "price research" ++ " clinical studies pubmed research 2024" :=
  (create_query_first_rule_only "price research" "").2 ⟨by decide, by decide⟩

/-- C6: every `process_query` run performs exactly one RAG pass, and it
comes first; a web search never happens without it; at most one synthesis
pass follows a web search; and with a negative decision the RAG answer is
returned verbatim, with no search and no synthesis pass. -/
theorem process_query_pass_invariants (self : AIManager) (w : World) (user_query : String)
    (deps : AIManagerDeps) (message_history : List String) :
    ((self.process_query w user_query deps message_history).1 = [Pass.rag] ∨
     (self.process_query w user_query deps message_history).1 =
       [Pass.rag, Pass.search, Pass.synth]) ∧
    (self.process_query w user_query deps message_history).1.head? = some Pass.rag ∧
    (self.process_query w user_query deps message_history).1.count Pass.rag = 1 ∧
    (self.process_query w user_query deps message_history).1.count Pass.search ≤ 1 ∧
    (self.process_query w user_query deps message_history).1.count Pass.synth ≤ 1 ∧
    (analyze_need_for_web_search user_query
        (self.get_rag_response w user_query deps.clinic_deps message_history) = false →
      self.process_query w user_query deps message_history =
        ([Pass.rag], self.get_rag_response w user_query deps.clinic_deps message_history)) := by
  simp only [process_query_eq]
  split
  case isTrue hn =>
    refine ⟨Or.inr rfl, rfl, rfl, Nat.le_refl 1, Nat.le_refl 1, fun hfalse => ?_⟩
    rw [hfalse] at hn
    exact absurd hn (by decide)
  case isFalse hn =>
    exact ⟨Or.inl rfl, rfl, rfl, Nat.zero_le 1, Nat.zero_le 1, fun _ => rfl⟩

set_option maxRecDepth 40000 in
/-- Witness for C6: a long, trigger-free RAG answer yields the RAG-only path. -/
theorem process_query_pass_invariants_witness :
    (AIManager.init false none).process_query sampleWorldLong "hi" sampleDeps [] =
      ([Pass.rag], longAnswer) :=
  (process_query_pass_invariants (AIManager.init false none) sampleWorldLong "hi"
    sampleDeps []).2.2.2.2.2 (by decide)

set_option maxRecDepth 40000 in
/-- C7 counterexample: a 400-character content string appears in full in
the rendered block — `format_search_results` applies no 300-character cap. -/
theorem format_results_no_truncation :
    strContains ((WebSearcher.mk none).format_search_results
      [⟨"T", longContentA, "U", 1⟩]) longContentA = true ∧
    longContentA.length = 400 := by
  constructor
  · apply strContains_of_parts _ _
      (String.data "## Web Search Results\n\n### Result 1: T\n**Source:** U\n**Content:** ")
      (String.data "\n---\n")
    decide
  · decide

/-- C7 (amended): `format_search_results` renders the fixed
`## Web Search Results` header followed by each result exactly once in
original input order with its title, source label and full, untruncated
content, and returns the non-empty message `No search results found.` for
the empty list. -/
theorem format_results_order_and_nonempty (self : WebSearcher) (results : List SearchResult) :
    self.format_search_results results = specFormatResults results ∧
    self.format_search_results [] = "No search results found." ∧
    ("No search results found.").isEmpty = false :=
  ⟨rfl, rfl, rfl⟩

/-- C8 counterexample: a 200 primary response with zero usable results is
returned as the empty list; the fallback — which here would have produced
the one-element disclaimer list — is not consulted. -/
theorem search_web_zero_primary_no_fallback :
    (WebSearcher.mk (some "key2")).search_web "botox price" 3
        ⟨PrimaryResponse.status200 ⟨some "", []⟩, DuckOutcome.exn⟩ = [] ∧
    (WebSearcher.mk (some "key2")).fallback_search "botox price" 3
        ⟨PrimaryResponse.status200 ⟨some "", []⟩, DuckOutcome.exn⟩ =
      [searchUnavailableResult "botox price"] :=
  ⟨rfl, rfl⟩

/-- C8 (amended): the fallback runs exactly when the key is falsy or the
primary call raises or returns a non-200 status; a successful 200 primary
response is returned as parsed — even with zero usable results — without
invoking the fallback. -/
theorem search_web_fallback_only_on_error (self : WebSearcher) (query : String)
    (max_results : Nat) (w : HttpWorld) :
    (∀ data, optTruthy self.api_key = true → w.primary = PrimaryResponse.status200 data →
      self.search_web query max_results w = tavilyToResults data) ∧
    ((!(optTruthy self.api_key) || primaryFailed w.primary) = true →
      self.search_web query max_results w = self.fallback_search query max_results w) := by
  constructor
  · intro data hk hp
    simp [WebSearcher.search_web, hk, hp]
  · intro h
    cases hk : optTruthy self.api_key with
    | false => simp [WebSearcher.search_web, hk]
    | true =>
      rw [hk] at h
      simp only [Bool.not_true, Bool.false_or] at h
      cases hp : w.primary with
      | status200 d => rw [hp] at h; simp [primaryFailed] at h
      | exn => simp [WebSearcher.search_web, hk, hp]
      | statusOther c => simp [WebSearcher.search_web, hk, hp]

/-- Witness for the amended C8: a 200 primary response with no usable items
is returned as parsed (here, the empty list), with no fallback. -/
theorem search_web_fallback_only_on_error_witness :
    (WebSearcher.mk (some "k")).search_web "q" 3
        ⟨PrimaryResponse.status200 ⟨none, []⟩, DuckOutcome.exn⟩ =
      tavilyToResults ⟨none, []⟩ :=
  (search_web_fallback_only_on_error (WebSearcher.mk (some "k")) "q" 3
      ⟨PrimaryResponse.status200 ⟨none, []⟩, DuckOutcome.exn⟩).1 ⟨none, []⟩ (by decide) rfl

set_option maxRecDepth 40000 in
/-- C9: when the embedding call fails, `get_embedding` returns the zero
vector of the fixed dimensionality 1536 instead of raising, and the
retrieval tool then behaves exactly as on a successful zero-vector
embedding — the similarity search degrades rather than erroring. -/
theorem get_embedding_zero_vector_on_failure (msg : String)
    (rpc : List Int → Except String (List Doc)) (direct : Except String (List Doc)) :
    get_embedding (Except.error msg) = List.replicate 1536 0 ∧
    (get_embedding (Except.error msg)).length = 1536 ∧
    (get_embedding (Except.error msg)).all (fun x => x == 0) = true ∧
    retrieve_relevant_clinic_information (Except.error msg) rpc direct =
      retrieve_relevant_clinic_information (Except.ok (List.replicate 1536 0)) rpc direct := by
  refine ⟨rfl, by simp [get_embedding], ?_, rfl⟩
  have e : get_embedding (Except.error msg) = List.replicate 1536 (0 : Int) := rfl
  rw [e, List.all_eq_true]
  intro x hx
  rw [List.eq_of_mem_replicate hx]
  rfl

/-- C10: `process_query` never consults the `web_searcher` field of its
`deps` argument — the search pass always uses the manager's own instance
built in `__init__` — so two runs whose dependencies differ only in that
field behave identically. -/
theorem process_query_ignores_deps_web_searcher (self : AIManager) (w : World)
    (user_query : String) (clinic_deps : ClinicAIDeps) (ws₁ ws₂ : WebSearcher)
    (message_history : List String) :
    self.process_query w user_query ⟨clinic_deps, ws₁⟩ message_history =
      self.process_query w user_query ⟨clinic_deps, ws₂⟩ message_history := rfl
